import Mathlib

/-!
Shallow embedding of the clvisc_wrapper OpenCL backend
(src/external_packages/clvisc_wrapper/opencl_backend.cc and its header
include/opencl_backend.h), together with theorems checking the
specification's claims about it.

The native OpenCL runtime is modelled as an explicit environment
(`World`): the platform list returned by cl::Platform::get, the device
list a context reports, the file system, and the outcome of the native
program build.  Process-level effects (exit, uncaught exceptions,
undefined behaviour) are an explicit `Outcome`; printed text is an
explicit `Trace`.  Machine arithmetic (cl_int, size_t) is modelled on
Int/Nat with the conversions written out.
-/

namespace ClviscWrapper

/-- Wrap a mathematical integer to a signed 32-bit value (cl_int). -/
def toClInt (n : Int) : Int := (n + 2 ^ 31) % 2 ^ 32 - 2 ^ 31

/-- Conversion of a cl_int value to a 64-bit unsigned value (size_t or
cl_ulong), as performed by the usual arithmetic conversions in C++. -/
def clIntToSizeT (n : Int) : Nat := (n % 2 ^ 64).toNat

/-- size_t subtraction of 1 (used for `num_of_devices - 1`): wraps to
2^64 - 1 when the operand is 0. -/
def sizeTPred (n : Nat) : Nat := (n + 2 ^ 64 - 1) % 2 ^ 64

/-- CL_DEVICE_TYPE_CPU from the OpenCL headers, (1 << 1). -/
def CL_DEVICE_TYPE_CPU : Nat := 2

/-- CL_DEVICE_TYPE_GPU from the OpenCL headers, (1 << 2). -/
def CL_DEVICE_TYPE_GPU : Nat := 4

/-- CL_DEVICE_TYPE_ALL from the OpenCL headers, 0xFFFFFFFF. -/
def CL_DEVICE_TYPE_ALL : Nat := 0xFFFFFFFF

/-- CL_MEM_READ_WRITE, (1 << 0). -/
def CL_MEM_READ_WRITE : Nat := 1

/-- CL_MEM_READ_ONLY, (1 << 2). -/
def CL_MEM_READ_ONLY : Nat := 4

/-- CL_MEM_COPY_HOST_PTR, (1 << 5). -/
def CL_MEM_COPY_HOST_PTR : Nat := 32

/-- CL_QUEUE_PROFILING_ENABLE, (1 << 1). -/
def CL_QUEUE_PROFILING_ENABLE : Nat := 2

/-- A cl::Device as far as the wrapper observes it: the values the
getInfo calls in opencl_backend.cc return. -/
structure Device where
  name : String
  device_type : Nat
  max_compute_units : Nat
  max_work_group_size : Nat
  max_work_item_sizes : List Nat
  global_mem_size : Nat
  local_mem_size : Nat
  deriving DecidableEq

/-- A cl::Platform: its handle and the device list that
getDevices(CL_DEVICE_TYPE_ALL, ...) fills in. -/
structure Platform where
  handle : Nat
  devices : List Device
  deriving DecidableEq

/-- A cl::Context as created in CreateContext_: the requested device
type and the platform handle passed in the context properties. -/
structure Context where
  device_type : Int
  platform : Nat
  deriving DecidableEq

/-- A cl::CommandQueue as created in the OpenclBackend constructor. -/
structure CommandQueue where
  context : Context
  device : Device
  properties : Nat
  deriving DecidableEq

/-- A cl::Program as created in BuildProgram: the context and the
kernel source string. -/
structure Program where
  context : Context
  source : String
  deriving DecidableEq

/-- A cl::Kernel as created in CreateKernel. -/
structure Kernel where
  program : Program
  func_name : String
  deriving DecidableEq

/-- A cl::Buffer: the context it lives in, its cl_mem_flags, its size in
bytes, and the host data it was initialised from (when
CL_MEM_COPY_HOST_PTR was used). -/
structure Buffer (α : Type) where
  context : Context
  flags : Nat
  size : Nat
  host_init : Option (List α)
  deriving DecidableEq

/-- Exceptions the wrapper can let escape. -/
inductive Exn where
  | out_of_range (msg : String)
  | clError (what : String) (code : Int)
  deriving DecidableEq

/-- Outcome of running a piece of the wrapper: a normal value, process
termination through exit(), an exception propagating out, or undefined
behaviour (out-of-bounds vector access, or control falling off the end
of a value-returning function). -/
inductive Outcome (α : Type) where
  | ok (a : α)
  | exit (code : Int)
  | thrown (e : Exn)
  | ub
  deriving DecidableEq

/-- Text printed so far on stdout and stderr. -/
structure Trace where
  out : String
  err : String
  deriving DecidableEq

def traceAppend (a b : Trace) : Trace := ⟨a.out ++ b.out, a.err ++ b.err⟩

/-- The native environment: what the OpenCL runtime and the file system
answer to the wrapper's calls. -/
structure World where
  platforms : List Platform
  contextDevices : Context → List Device
  fileContents : String → Option String
  buildResult : Program → List Device → String → Option (String × Int)
  buildLog : Program → Device → String

/-! ## CompileOption (opencl_backend.cc lines 3-37) -/

/-- The CompileOption class: its stringstream `opt`, modelled by the
string accumulated so far. -/
structure CompileOption where
  opt : String
  deriving DecidableEq

/-- CompileOption::Define (lines 16-18). -/
def CompileOption.Define (c : CompileOption) (definition : String) : CompileOption :=
  ⟨c.opt ++ ("-D " ++ definition ++ " ")⟩

/-- CompileOption::KernelIncludePath (lines 20-22). -/
def CompileOption.KernelIncludePath (c : CompileOption) (abs_path : String) : CompileOption :=
  ⟨c.opt ++ ("-I " ++ abs_path ++ " ")⟩

/-- CompileOption::SetIntConst (lines 24-26). -/
def CompileOption.SetIntConst (c : CompileOption) (key : String) (value : Int) : CompileOption :=
  ⟨c.opt ++ ("-D " ++ key ++ "=" ++ toString value ++ " ")⟩

/-- The default constructor CompileOption::CompileOption() (lines 3-5):
a fresh stringstream, then Define("USE_SINGLE_PRECISION"). -/
def CompileOption.mkDefault : CompileOption :=
  CompileOption.Define ⟨""⟩ "USE_SINGLE_PRECISION"

/-- The two-argument constructor
CompileOption::CompileOption(use_single_precision, optimize)
(lines 7-14). -/
def CompileOption.mkTwoArg (use_single_precision optimize : Bool) : CompileOption :=
  let c : CompileOption := ⟨""⟩
  let c := if use_single_precision then c.Define "USE_SINGLE_PRECISION" else c
  if ! optimize then c.Define "-cl-opt-disable" else c

/-- One mutator call on a CompileOption, for stating properties of call
sequences. -/
inductive OptCall where
  | defineCall (d : String)
  | setIntConstCall (k : String) (v : Int)
  | includePathCall (p : String)
  deriving DecidableEq

/-- Apply one mutator call. -/
def OptCall.apply (c : CompileOption) : OptCall → CompileOption
  | .defineCall d => c.Define d
  | .setIntConstCall k v => c.SetIntConst k v
  | .includePathCall p => c.KernelIncludePath p

/-- The fragment a mutator call appends to the option string. -/
def OptCall.fragment : OptCall → String
  | .defineCall d => "-D " ++ d ++ " "
  | .setIntConstCall k v => "-D " ++ k ++ "=" ++ toString v ++ " "
  | .includePathCall p => "-I " ++ p ++ " "

/-- Run a sequence of mutator calls in order. -/
def runOptCalls (c : CompileOption) (calls : List OptCall) : CompileOption :=
  calls.foldl OptCall.apply c

/-! ## OpenclBackend (opencl_backend.cc lines 39-162) -/

/-- The device-type selection at the top of the OpenclBackend
constructor (lines 41-47): the value assigned to device_type_ before
the cl_int conversion. -/
def deviceTypeSelect (device_type : String) : Nat :=
  if device_type == "cpu" || device_type == "CPU" then
    CL_DEVICE_TYPE_CPU
  else if device_type == "gpu" || device_type == "GPU" then
    CL_DEVICE_TYPE_GPU
  else
    CL_DEVICE_TYPE_ALL

/-- The comparison on line 87:
supportDevices.at(j).getInfo of CL_DEVICE_TYPE == device_type, where the
left side is a cl_ulong and device_type a cl_int, so the cl_int is
converted to unsigned 64-bit. -/
def deviceMatches (d : Device) (device_type : Int) : Bool :=
  d.device_type == clIntToSizeT device_type

/-- The inner loop of CreateContext_ (lines 86-95): does platform p host
a device whose CL_DEVICE_TYPE compares equal to device_type. -/
def platformSupports (p : Platform) (device_type : Int) : Bool :=
  p.devices.any (fun d => deviceMatches d device_type)

/-- The outer loop of CreateContext_ (lines 83-96): the first platform,
in enumeration order, hosting a matching device. -/
def findPlatform (ps : List Platform) (device_type : Int) : Option Platform :=
  match ps with
  | [] => none
  | p :: rest =>
    if platformSupports p device_type then some p
    else findPlatform rest device_type

/-- OpenclBackend::CreateContext_ (lines 75-101).  The platform list is
what cl::Platform::get fills in.  On success the context is built from
the device type and the matching platform's handle (lines 89-93); with
no platforms, or no platform supporting the type, an error is printed
on stderr and the process exits with -1. -/
def CreateContext_ (platforms : List Platform) (device_type : Int) :
    Trace × Outcome Context :=
  if platforms.length == 0 then
    (⟨"", "No platform found, install CUDA or AMD SDK first\n"⟩, Outcome.exit (-1))
  else
    match findPlatform platforms device_type with
    | some p => (⟨"", ""⟩, Outcome.ok ⟨device_type, p.handle⟩)
    | none =>
      (⟨"", "no platform support device type" ++ toString device_type ++ "\n"⟩,
       Outcome.exit (-1))

/-- The stdout text OpenclBackend::DeviceInfo (lines 141-162) prints for
one device at a given running device_id. -/
def deviceInfoOne (device_id : Nat) (d : Device) : String :=
  "Device ID: " ++ toString device_id ++ "\n" ++
  "Device Name: " ++ d.name ++ "\n" ++
  "Max computing units: " ++ toString d.max_compute_units ++ "\n" ++
  "Max workgroup size: " ++ toString d.max_work_group_size ++ "\n" ++
  "Max work items in one work group: " ++
    String.join (d.max_work_item_sizes.map (fun sz => toString sz ++ " ")) ++ "\n" ++
  "Global memory size: " ++ toString (d.global_mem_size / 1024 / 1024 / 1024) ++ "GB\n" ++
  "Local memory size: " ++ toString (d.local_mem_size / 1024) ++ "KB\n\n"

/-- The full stdout text of OpenclBackend::DeviceInfo over a device
list, device_id counting up from 0. -/
def deviceInfoStr (devices : List Device) : String :=
  String.join (devices.enum.map (fun p => deviceInfoOne p.1 p.2))

/-- The device-selection stage of the OpenclBackend constructor
(lines 52-59): the bound num_of_devices - 1 is computed in size_t
arithmetic, the out-of-range branch prints the device listing and
throws std::out_of_range, and otherwise devices_[device_id_] is read
with vector::operator[], which is undefined behaviour out of bounds. -/
def selectDevice (devices : List Device) (device_id : Int) :
    Trace × Outcome Device :=
  let num_of_devices := devices.length
  if device_id < 0 ∨ sizeTPred num_of_devices < clIntToSizeT device_id then
    (⟨deviceInfoStr devices, ""⟩,
     Outcome.thrown (Exn.out_of_range "device_id out of range"))
  else
    match devices.get? (clIntToSizeT device_id) with
    | some d => (⟨"", ""⟩, Outcome.ok d)
    | none => (⟨"", ""⟩, Outcome.ub)

/-- The OpenclBackend object: the three public std::map members
(default-constructed empty) and the private fields of the header
(include/opencl_backend.h lines 58-95). -/
structure Backend where
  programs : List (String × Program)
  kernel_funcs : List (String × Kernel)
  buffers : List (String × Buffer Unit)
  device_type_ : Int
  devices_ : List Device
  device_id_ : Int
  device_ : Device
  context_ : Context
  queue_ : CommandQueue
  deriving DecidableEq

/-- The OpenclBackend constructor (lines 39-61): select the device
type, create the context, read the context's device list, select the
device (or throw), and create the profiling command queue. -/
def OpenclBackend.construct (w : World) (device_type : String) (device_id : Int) :
    Trace × Outcome Backend :=
  let dt : Int := toClInt (Int.ofNat (deviceTypeSelect device_type))
  match CreateContext_ w.platforms dt with
  | (t, Outcome.ok ctx) =>
    let devices := w.contextDevices ctx
    match selectDevice devices device_id with
    | (t2, Outcome.ok dev) =>
      (traceAppend t t2,
       Outcome.ok
         { programs := [], kernel_funcs := [], buffers := [],
           device_type_ := dt, devices_ := devices, device_id_ := device_id,
           device_ := dev, context_ := ctx,
           queue_ := ⟨ctx, dev, CL_QUEUE_PROFILING_ENABLE⟩ })
    | (t2, Outcome.exit c) => (traceAppend t t2, Outcome.exit c)
    | (t2, Outcome.thrown e) => (traceAppend t t2, Outcome.thrown e)
    | (t2, Outcome.ub) => (traceAppend t t2, Outcome.ub)
  | (t, Outcome.exit c) => (t, Outcome.exit c)
  | (t, Outcome.thrown e) => (t, Outcome.thrown e)
  | (t, Outcome.ub) => (t, Outcome.ub)

/-- The kernel source string BuildProgram reads from fname (lines
106-109): the file contents when the ifstream opens, and the empty
string when it does not (the istreambuf_iterator range is empty). -/
def kernelSource (w : World) (fname : String) : String :=
  (w.fileContents fname).getD ""

/-- The stderr message of the failed-open check on line 107. -/
def openErrMsg (w : World) (fname : String) : String :=
  if (w.fileContents fname).isSome then "" else "Open " ++ fname ++ " failed!\n"

/-- OpenclBackend::BuildProgram (lines 103-121).  A file that fails to
open only prints a message; the build then proceeds on the empty
source.  When the native build throws cl::Error, the catch branch
prints what(), the error code and the build log for device_, and then
control falls off the end of the function without a return statement:
undefined behaviour, modelled as Outcome.ub.  The backend object is
threaded through to record any mutation of its fields. -/
def BuildProgram (w : World) (be : Backend) (fname : String)
    (compile_option : CompileOption) : Backend × Trace × Outcome Program :=
  let sprog := kernelSource w fname
  let program : Program := ⟨be.context_, sprog⟩
  match w.buildResult program be.devices_ compile_option.opt with
  | none => (be, ⟨"", openErrMsg w fname⟩, Outcome.ok program)
  | some pr =>
    (be,
     ⟨"", openErrMsg w fname ++ pr.1 ++ "(" ++ toString pr.2 ++ ")\n" ++
          w.buildLog program be.device_⟩,
     Outcome.ub)

/-- OpenclBackend::CreateKernel (header lines 70-72). -/
def CreateKernel (prg : Program) (func_name : String) : Kernel :=
  ⟨prg, func_name⟩

/-- OpenclBackend::CreateBuffer (lines 124-126). -/
def CreateBuffer (be : Backend) (bytes_of_buffer : Nat) : Buffer Unit :=
  ⟨be.context_, CL_MEM_READ_WRITE, bytes_of_buffer, none⟩

/-- OpenclBackend::CreateBufferByCopyVector (lines 128-139), a template
over ValueType; sizeofValueType stands for sizeof(ValueType). -/
def CreateBufferByCopyVector {α : Type} (sizeofValueType : Nat) (be : Backend)
    (source_vector : List α) (read_only : Bool) : Buffer α :=
  if read_only then
    ⟨be.context_, CL_MEM_READ_ONLY ||| CL_MEM_COPY_HOST_PTR,
     source_vector.length * sizeofValueType, some source_vector⟩
  else
    ⟨be.context_, CL_MEM_READ_WRITE ||| CL_MEM_COPY_HOST_PTR,
     source_vector.length * sizeofValueType, some source_vector⟩

/-! ## Concrete fixtures for witnesses and counterexamples -/

/-- A concrete GPU device (CL_DEVICE_TYPE_GPU = 4). -/
def devGpu : Device := ⟨"TestGPU", 4, 80, 1024, [1024, 1024, 64], 2 ^ 34, 2 ^ 16⟩

/-- A concrete CPU device (CL_DEVICE_TYPE_CPU = 2). -/
def devCpu : Device := ⟨"TestCPU", 2, 8, 256, [256, 2, 2], 2 ^ 33, 2 ^ 15⟩

/-- A platform hosting only the CPU device. -/
def platCpuOnly : Platform := ⟨3, [devCpu]⟩

/-- A platform hosting only the GPU device. -/
def platGpu : Platform := ⟨7, [devGpu]⟩

/-- A concrete context on platGpu. -/
def ctx1 : Context := ⟨4, 7⟩

/-- A concrete backend on the GPU device. -/
def be1 : Backend :=
  { programs := [], kernel_funcs := [], buffers := [],
    device_type_ := 4, devices_ := [devGpu], device_id_ := 0,
    device_ := devGpu, context_ := ctx1,
    queue_ := ⟨ctx1, devGpu, CL_QUEUE_PROFILING_ENABLE⟩ }

/-- A world where the kernel file opens but the native build always
throws cl::Error("clBuildProgram", -11). -/
def worldBuildFail : World :=
  { platforms := [platGpu],
    contextDevices := fun _ => [devGpu],
    fileContents := fun _ => some "kernel source text",
    buildResult := fun _ _ _ => some ("clBuildProgram", -11),
    buildLog := fun _ _ => "error: build failed" }

/-- A world whose context reports an empty device list, where no file
opens and every build succeeds. -/
def worldEmptyDevices : World :=
  { platforms := [platCpuOnly],
    contextDevices := fun _ => [],
    fileContents := fun _ => none,
    buildResult := fun _ _ _ => none,
    buildLog := fun _ _ => "" }

/-! ## Helper lemmas -/

theorem optCall_apply_opt (c : CompileOption) (call : OptCall) :
    (OptCall.apply c call).opt = c.opt ++ call.fragment := by
  cases call <;> rfl

theorem runOptCalls_cons (c : CompileOption) (hd : OptCall) (tl : List OptCall) :
    runOptCalls c (hd :: tl) = runOptCalls (OptCall.apply c hd) tl := rfl

/-- The fragments of a call list, concatenated in order. -/
def optFragments : List OptCall → String
  | [] => ""
  | call :: rest => call.fragment ++ optFragments rest

theorem runOptCalls_opt (c : CompileOption) (calls : List OptCall) :
    (runOptCalls c calls).opt = c.opt ++ optFragments calls := by
  induction calls generalizing c with
  | nil =>
    show c.opt = c.opt ++ ""
    simp
  | cons hd tl ih =>
    rw [runOptCalls_cons, ih, optCall_apply_opt, optFragments,
        String.append_assoc]

/-! ## Claim theorems -/

/-- C4: For every device_type string passed to the OpenclBackend
constructor, the selected native device type is CL_DEVICE_TYPE_CPU
exactly when the string is "cpu" or "CPU", CL_DEVICE_TYPE_GPU exactly
when it is "gpu" or "GPU", and CL_DEVICE_TYPE_ALL for every other
string. -/
theorem C4_device_type_selection (s : String) :
    (deviceTypeSelect s = CL_DEVICE_TYPE_CPU ↔ (s = "cpu" ∨ s = "CPU")) ∧
    (deviceTypeSelect s = CL_DEVICE_TYPE_GPU ↔ (s = "gpu" ∨ s = "GPU")) ∧
    (deviceTypeSelect s = CL_DEVICE_TYPE_ALL ↔
      ¬ (s = "cpu" ∨ s = "CPU" ∨ s = "gpu" ∨ s = "GPU")) := by
  by_cases h1 : s = "cpu" <;> by_cases h2 : s = "CPU" <;>
    by_cases h3 : s = "gpu" <;> by_cases h4 : s = "GPU" <;>
    simp_all [deviceTypeSelect, CL_DEVICE_TYPE_CPU, CL_DEVICE_TYPE_GPU,
              CL_DEVICE_TYPE_ALL]

/-- C5: The compile-option string is the in-order concatenation of one
fragment per mutator call: Define(d) appends exactly "-D d ",
SetIntConst(k, v) appends exactly "-D k=v ", KernelIncludePath(p)
appends exactly "-I p ", and no call modifies or removes the fragments
appended by earlier calls (running any call list appends exactly its
fragments, in order, after the existing string). -/
theorem C5_option_concatenation :
    (∀ (c : CompileOption) (d : String),
        (c.Define d).opt = c.opt ++ ("-D " ++ d ++ " ")) ∧
    (∀ (c : CompileOption) (k : String) (v : Int),
        (c.SetIntConst k v).opt = c.opt ++ ("-D " ++ k ++ "=" ++ toString v ++ " ")) ∧
    (∀ (c : CompileOption) (p : String),
        (c.KernelIncludePath p).opt = c.opt ++ ("-I " ++ p ++ " ")) ∧
    (∀ (c : CompileOption) (calls : List OptCall),
        (runOptCalls c calls).opt = c.opt ++ optFragments calls) :=
  ⟨fun _ _ => rfl, fun _ _ _ => rfl, fun _ _ => rfl, runOptCalls_opt⟩

/-- C10: The default CompileOption constructor produces exactly
"-D USE_SINGLE_PRECISION "; the two-argument constructor produces
"-D USE_SINGLE_PRECISION " exactly when use_single_precision is true,
followed by "-D -cl-opt-disable " exactly when optimize is false (the
"-D " prefix is applied to the opt-disable flag as well), and the empty
string when use_single_precision is false and optimize is true. -/
theorem C10_constructor_strings :
    CompileOption.mkDefault.opt = "-D USE_SINGLE_PRECISION " ∧
    ∀ (u o : Bool),
      (CompileOption.mkTwoArg u o).opt =
        (if u then "-D USE_SINGLE_PRECISION " else "") ++
        (if o then "" else "-D -cl-opt-disable ") := by
  refine ⟨rfl, fun u o => ?_⟩
  cases u <;> cases o <;> rfl

/-- C6: CreateBuffer(n) allocates a read-write buffer of exactly n
bytes in the backend's context with no host initialisation;
CreateBufferByCopyVector(v, read_only) allocates a buffer of exactly
v.size() * sizeof(ValueType) bytes in the backend's context,
initialised by copying v, and the CL_MEM_READ_ONLY flag is set exactly
when read_only is true. -/
theorem C6_buffer_allocation :
    (∀ (be : Backend) (n : Nat),
        (CreateBuffer be n).context = be.context_ ∧
        (CreateBuffer be n).flags = CL_MEM_READ_WRITE ∧
        (CreateBuffer be n).size = n ∧
        (CreateBuffer be n).host_init = none) ∧
    (∀ (α : Type) (sz : Nat) (be : Backend) (v : List α) (ro : Bool),
        (CreateBufferByCopyVector sz be v ro).context = be.context_ ∧
        (CreateBufferByCopyVector sz be v ro).size = v.length * sz ∧
        (CreateBufferByCopyVector sz be v ro).host_init = some v ∧
        ((CreateBufferByCopyVector sz be v ro).flags &&& CL_MEM_READ_ONLY ≠ 0 ↔
          ro = true)) := by
  refine ⟨fun be n => ⟨rfl, rfl, rfl, rfl⟩, fun α sz be v ro => ?_⟩
  cases ro
  · refine ⟨rfl, rfl, rfl, ?_⟩
    show (CL_MEM_READ_WRITE ||| CL_MEM_COPY_HOST_PTR) &&& CL_MEM_READ_ONLY ≠ 0 ↔
      false = true
    decide
  · refine ⟨rfl, rfl, rfl, ?_⟩
    show (CL_MEM_READ_ONLY ||| CL_MEM_COPY_HOST_PTR) &&& CL_MEM_READ_ONLY ≠ 0 ↔
      true = true
    decide

/-- C7: BuildProgram performs no caching: it never inserts into or
modifies the backend's programs, kernel_funcs or buffers maps, and
leaves every other field of the backend unchanged, whether the build
succeeds or fails. -/
theorem C7_build_no_caching (w : World) (be : Backend) (fname : String)
    (opt : CompileOption) :
    (BuildProgram w be fname opt).1 = be ∧
    (BuildProgram w be fname opt).1.programs = be.programs ∧
    (BuildProgram w be fname opt).1.kernel_funcs = be.kernel_funcs ∧
    (BuildProgram w be fname opt).1.buffers = be.buffers ∧
    (BuildProgram w be fname opt).1.context_ = be.context_ ∧
    (BuildProgram w be fname opt).1.devices_ = be.devices_ ∧
    (BuildProgram w be fname opt).1.device_ = be.device_ ∧
    (BuildProgram w be fname opt).1.queue_ = be.queue_ := by
  have h : (BuildProgram w be fname opt).1 = be := by
    unfold BuildProgram
    cases hb : w.buildResult ⟨be.context_, kernelSource w fname⟩ be.devices_ opt.opt <;>
      simp [hb]
  exact ⟨h, by rw [h], by rw [h], by rw [h], by rw [h], by rw [h], by rw [h], by rw [h]⟩

theorem findPlatform_eq_none (ps : List Platform) (dt : Int)
    (h : ∀ p ∈ ps, platformSupports p dt = false) : findPlatform ps dt = none := by
  induction ps with
  | nil => rfl
  | cons p rest ih =>
    rw [findPlatform, h p (List.mem_cons_self p rest)]
    exact ih (fun q hq => h q (List.mem_cons_of_mem p hq))

theorem createContext_no_support (ps : List Platform) (dt : Int)
    (hne : ps ≠ []) (hall : ∀ p ∈ ps, platformSupports p dt = false) :
    CreateContext_ ps dt =
      (⟨"", "no platform support device type" ++ toString dt ++ "\n"⟩,
       Outcome.exit (-1)) := by
  have hlen : (ps.length == 0) = false := by
    simp only [beq_eq_false_iff_ne, ne_eq]
    intro hc
    exact hne (List.length_eq_zero.mp hc)
  rw [CreateContext_, hlen, findPlatform_eq_none ps dt hall]
  rfl

theorem findPlatform_eq_first (ps : List Platform) (dt : Int) (i : Nat)
    (h : i < ps.length)
    (hsupp : platformSupports (ps.get ⟨i, h⟩) dt = true)
    (hfirst : ∀ (j : Nat) (hj : j < ps.length), j < i →
        platformSupports (ps.get ⟨j, hj⟩) dt = false) :
    findPlatform ps dt = some (ps.get ⟨i, h⟩) := by
  induction ps generalizing i with
  | nil => exact absurd h (by simp)
  | cons p rest ih =>
    cases i with
    | zero =>
      rw [findPlatform]
      simp only [List.get] at hsupp ⊢
      rw [hsupp]
      rfl
    | succ n =>
      have hp : platformSupports p dt = false :=
        hfirst 0 (Nat.succ_pos rest.length) (Nat.succ_pos n)
      rw [findPlatform, hp]
      simp only [List.get] at hsupp ⊢
      exact ih n (Nat.lt_of_succ_lt_succ h) hsupp
        (fun j hj hlt => hfirst (j + 1) (Nat.succ_lt_succ hj) (Nat.succ_lt_succ hlt))

/-- C3: CreateContext_ enumerates the platforms in order and returns a
context built from the requested device type and the handle of the
first platform (lowest index) hosting a device whose CL_DEVICE_TYPE
compares equal to the requested type; with zero platforms, or with no
platform hosting such a device, it prints an error on stderr and exits
the process with status -1. -/
theorem C3_create_context (ps : List Platform) (dt : Int) :
    (ps = [] →
      CreateContext_ ps dt =
        (⟨"", "No platform found, install CUDA or AMD SDK first\n"⟩,
         Outcome.exit (-1))) ∧
    (∀ (i : Nat) (h : i < ps.length),
      platformSupports (ps.get ⟨i, h⟩) dt = true →
      (∀ (j : Nat) (hj : j < ps.length), j < i →
          platformSupports (ps.get ⟨j, hj⟩) dt = false) →
      CreateContext_ ps dt =
        (⟨"", ""⟩, Outcome.ok ⟨dt, (ps.get ⟨i, h⟩).handle⟩)) ∧
    (ps ≠ [] → (∀ p ∈ ps, platformSupports p dt = false) →
      CreateContext_ ps dt =
        (⟨"", "no platform support device type" ++ toString dt ++ "\n"⟩,
         Outcome.exit (-1))) := by
  refine ⟨?_, ?_, ?_⟩
  · intro h; subst h; rfl
  · intro i h hsupp hfirst
    have hne : (ps.length == 0) = false := by
      simp only [beq_eq_false_iff_ne, ne_eq]
      omega
    rw [CreateContext_, hne, findPlatform_eq_first ps dt i h hsupp hfirst]
    rfl
  · exact createContext_no_support ps dt

/-- C3 witness: with a CPU-only platform first and a GPU platform
second, requesting type 4 (GPU) selects the second platform. -/
theorem C3_create_context_witness :
    CreateContext_ [platCpuOnly, platGpu] 4 = (⟨"", ""⟩, Outcome.ok ⟨4, 7⟩) :=
  (C3_create_context [platCpuOnly, platGpu] 4).2.1 1 (by decide) (by decide)
    (by decide)

/-- C2: whenever the native build call throws cl::Error, BuildProgram
prints on stderr the error description (what()), the error code, and
the compiler build log for the selected device. -/
theorem C2_build_failure_prints (w : World) (be : Backend) (fname : String)
    (opt : CompileOption) (what : String) (code : Int)
    (h : w.buildResult ⟨be.context_, kernelSource w fname⟩ be.devices_ opt.opt =
          some (what, code)) :
    (BuildProgram w be fname opt).2.1.err =
      openErrMsg w fname ++ what ++ "(" ++ toString code ++ ")\n" ++
        w.buildLog ⟨be.context_, kernelSource w fname⟩ be.device_ := by
  unfold BuildProgram
  simp [h]

/-- C2 witness: a concrete world whose build always fails with
cl::Error("clBuildProgram", -11). -/
theorem C2_build_failure_prints_witness :
    (BuildProgram worldBuildFail be1 "hydro.cl" CompileOption.mkDefault).2.1.err =
      openErrMsg worldBuildFail "hydro.cl" ++ "clBuildProgram" ++ "(" ++
        toString (-11 : Int) ++ ")\n" ++
        worldBuildFail.buildLog
          ⟨be1.context_, kernelSource worldBuildFail "hydro.cl"⟩ be1.device_ :=
  C2_build_failure_prints worldBuildFail be1 "hydro.cl" CompileOption.mkDefault
    "clBuildProgram" (-11) rfl

theorem clIntToSizeT_nonneg (id : Int) (h0 : 0 ≤ id) (hhi : id < 2 ^ 31) :
    clIntToSizeT id = id.toNat := by
  unfold clIntToSizeT
  rw [Int.emod_eq_of_lt h0 (by omega)]

theorem sizeTPred_zero : sizeTPred 0 = 2 ^ 64 - 1 := by norm_num [sizeTPred]

theorem sizeTPred_pos (n : Nat) (h1 : 0 < n) (h2 : n < 2 ^ 64) :
    sizeTPred n = n - 1 := by
  unfold sizeTPred
  have h3 : n + 2 ^ 64 - 1 = (n - 1) + 1 * 2 ^ 64 := by omega
  rw [h3, Nat.add_mul_mod_self_right, Nat.mod_eq_of_lt (by omega)]

/-- C9 counterexample to the claim as stated: in a world whose context
reports an empty device list, the constructor called with device_id = 0
(which is ≥ devices_.size() = 0) neither throws std::out_of_range nor
assigns an in-bounds device: the unsigned bound devices_.size() - 1
wraps to 2^64 - 1, the range check passes, and devices_[0] is an
out-of-bounds vector access (undefined behaviour). -/
theorem C9_empty_devices_counterexample :
    (OpenclBackend.construct worldEmptyDevices "cpu" 0).2 = Outcome.ub ∧
    worldEmptyDevices.contextDevices
        ⟨toClInt (Int.ofNat CL_DEVICE_TYPE_CPU), platCpuOnly.handle⟩ = [] ∧
    ¬ (∃ e, (OpenclBackend.construct worldEmptyDevices "cpu" 0).2 =
          Outcome.thrown e) ∧
    ¬ (∃ b, (OpenclBackend.construct worldEmptyDevices "cpu" 0).2 =
          Outcome.ok b) := by
  have h1 : (OpenclBackend.construct worldEmptyDevices "cpu" 0).2 = Outcome.ub := by
    rfl
  refine ⟨h1, rfl, ?_, ?_⟩
  · rintro ⟨e, he⟩
    rw [h1] at he
    exact Outcome.noConfusion he
  · rintro ⟨b, hb⟩
    rw [h1] at hb
    exact Outcome.noConfusion hb

/-- C9 (amended): for device_id in the cl_int range and a device list
of size below 2^63, the device-selection stage of the constructor
throws std::out_of_range exactly when device_id < 0 or the device list
is non-empty with device_id >= devices_.size(); the throw is preceded
by printing the device listing; for an in-range device_id the selected
device is devices_[device_id]; but when the device list is empty, a
non-negative device_id does not throw (the size_t bound
devices_.size() - 1 wraps to 2^64 - 1) and the vector access is
out of bounds, which is undefined behaviour. -/
theorem C9_device_check (devices : List Device) (id : Int)
    (hlo : -(2 ^ 31) ≤ id) (hhi : id < 2 ^ 31) (hlen : devices.length < 2 ^ 63) :
    (((selectDevice devices id).2 =
        Outcome.thrown (Exn.out_of_range "device_id out of range")) ↔
      (id < 0 ∨ (devices ≠ [] ∧ (devices.length : Int) ≤ id))) ∧
    ((id < 0 ∨ (devices ≠ [] ∧ (devices.length : Int) ≤ id)) →
      (selectDevice devices id).1 = ⟨deviceInfoStr devices, ""⟩) ∧
    (0 ≤ id → id < (devices.length : Int) →
      ∃ hb : id.toNat < devices.length,
        (selectDevice devices id).2 = Outcome.ok (devices.get ⟨id.toNat, hb⟩)) ∧
    (devices = [] → 0 ≤ id → (selectDevice devices id).2 = Outcome.ub) := by
  by_cases hneg : id < 0
  · have eqS : selectDevice devices id =
        (⟨deviceInfoStr devices, ""⟩,
         Outcome.thrown (Exn.out_of_range "device_id out of range")) := by
      simp only [selectDevice]
      rw [if_pos (Or.inl hneg)]
    refine ⟨?_, fun _ => by rw [eqS], ?_, ?_⟩
    · rw [eqS]
      simp only [true_iff]
      exact Or.inl hneg
    · intro h0 _
      exact absurd h0 (by omega)
    · intro _ h0
      exact absurd h0 (by omega)
  · have h0 : 0 ≤ id := by omega
    have hcs : clIntToSizeT id = id.toNat := clIntToSizeT_nonneg id h0 hhi
    by_cases hdev : devices = []
    · subst hdev
      have eqS : selectDevice [] id = (⟨"", ""⟩, Outcome.ub) := by
        simp only [selectDevice]
        rw [if_neg, hcs]
        · rfl
        · push_neg
          refine ⟨h0, ?_⟩

          rw [hcs]
          simp only [List.length_nil, sizeTPred_zero]
          omega
      refine ⟨?_, ?_, ?_, fun _ _ => by rw [eqS]⟩
      · rw [eqS]
        constructor
        · intro hc
          exact Outcome.noConfusion hc
        · rintro (h | ⟨hne, _⟩)
          · exact absurd h hneg
          · exact absurd rfl hne
      · rintro (h | ⟨hne, _⟩)
        · exact absurd h hneg
        · exact absurd rfl hne
      · intro _ hlt
        simp only [List.length_nil, Int.ofNat_zero] at hlt
        exact absurd hlt (by omega)
    · have hpos : 0 < devices.length := List.length_pos.mpr hdev
      have hsp : sizeTPred devices.length = devices.length - 1 :=
        sizeTPred_pos _ hpos (by omega)
      by_cases hreach : (devices.length : Int) ≤ id
      · have hguard : id < 0 ∨ sizeTPred devices.length < clIntToSizeT id := by
          right
          rw [hsp, hcs]
          omega
        have eqS : selectDevice devices id =
            (⟨deviceInfoStr devices, ""⟩,
             Outcome.thrown (Exn.out_of_range "device_id out of range")) := by
          simp only [selectDevice]
          rw [if_pos hguard]
        refine ⟨?_, fun _ => by rw [eqS], ?_, fun hd _ => absurd hd hdev⟩
        · rw [eqS]
          simp only [true_iff]
          exact Or.inr ⟨hdev, hreach⟩
        · intro _ hlt
          exact absurd hlt (not_lt.mpr hreach)
      · have hlt : id < (devices.length : Int) := by omega
        have hb : id.toNat < devices.length := by omega
        have hguard : ¬ (id < 0 ∨ sizeTPred devices.length < clIntToSizeT id) := by
          push_neg
          refine ⟨h0, ?_⟩
          rw [hsp, hcs]
          omega
        have eqS : selectDevice devices id =
            (⟨"", ""⟩, Outcome.ok (devices.get ⟨id.toNat, hb⟩)) := by
          simp only [selectDevice]
          rw [if_neg hguard, hcs, List.get?_eq_get hb]
        refine ⟨?_, ?_, ?_, fun hd _ => absurd hd hdev⟩
        · rw [eqS]
          constructor
          · intro hc
            exact Outcome.noConfusion hc
          · rintro (h | ⟨_, hle⟩)
            · exact absurd h hneg
            · exact absurd hle (not_le.mpr hlt)
        · rintro (h | ⟨_, hle⟩)
          · exact absurd h hneg
          · exact absurd hle (not_le.mpr hlt)
        · intro _ _
          exact ⟨hb, by rw [eqS]⟩

/-- C9 witness: on a one-device list, device_id 0 is in range and the
selected device is element 0. -/
theorem C9_device_check_witness :
    (selectDevice [devGpu] 0).2 = Outcome.ok devGpu := by
  obtain ⟨hb, hh⟩ :=
    (C9_device_check [devGpu] 0 (by norm_num) (by norm_num) (by norm_num)).2.2.1
      (by norm_num) (by norm_num)
  exact hh

/-- C1 counterexample to the claim as stated: when the kernel source
file fails to open, BuildProgram prints "Open fname failed!" on stderr
but does not terminate the process: it carries on, builds the program
from the empty source string, and returns it normally, so this error
path continues execution. -/
theorem C1_open_failure_continues :
    (BuildProgram worldEmptyDevices be1 "missing.cl" CompileOption.mkDefault).2.1.err =
      "Open missing.cl failed!\n" ∧
    (BuildProgram worldEmptyDevices be1 "missing.cl" CompileOption.mkDefault).2.2 =
      Outcome.ok ⟨be1.context_, ""⟩ ∧
    ¬ (∃ c, (BuildProgram worldEmptyDevices be1 "missing.cl"
          CompileOption.mkDefault).2.2 = Outcome.exit c) ∧
    ¬ (∃ e, (BuildProgram worldEmptyDevices be1 "missing.cl"
          CompileOption.mkDefault).2.2 = Outcome.thrown e) := by
  have h2 : (BuildProgram worldEmptyDevices be1 "missing.cl"
      CompileOption.mkDefault).2.2 = Outcome.ok ⟨be1.context_, ""⟩ := by rfl
  refine ⟨rfl, h2, ?_, ?_⟩
  · rintro ⟨c, hc⟩
    rw [h2] at hc
    exact Outcome.noConfusion hc
  · rintro ⟨e, he⟩
    rw [h2] at he
    exact Outcome.noConfusion he

/-- C1 (amended): the error paths behave as follows.  Zero platforms
and no-supporting-platform both print a diagnostic on stderr and exit
the process with -1; an out-of-range device_id prints the device
listing and throws std::out_of_range out of the constructor; a kernel
source file that fails to open only prints a diagnostic and continues
(the program is built from the empty source and returned); a failing
native build prints the diagnostics and then control falls off the end
of BuildProgram without a return statement (undefined behaviour), not a
process termination. -/
theorem C1_error_paths :
    (∀ dt : Int, CreateContext_ [] dt =
      (⟨"", "No platform found, install CUDA or AMD SDK first\n"⟩,
       Outcome.exit (-1))) ∧
    (∀ (ps : List Platform) (dt : Int), ps ≠ [] →
      (∀ p ∈ ps, platformSupports p dt = false) →
      CreateContext_ ps dt =
        (⟨"", "no platform support device type" ++ toString dt ++ "\n"⟩,
         Outcome.exit (-1))) ∧
    (∀ (devices : List Device) (id : Int),
      (id < 0 ∨ sizeTPred devices.length < clIntToSizeT id) →
      selectDevice devices id =
        (⟨deviceInfoStr devices, ""⟩,
         Outcome.thrown (Exn.out_of_range "device_id out of range"))) ∧
    (∀ (w : World) (be : Backend) (fname : String) (opt : CompileOption),
      w.fileContents fname = none →
      w.buildResult ⟨be.context_, ""⟩ be.devices_ opt.opt = none →
      BuildProgram w be fname opt =
        (be, ⟨"", "Open " ++ fname ++ " failed!\n"⟩,
         Outcome.ok ⟨be.context_, ""⟩)) ∧
    (∀ (w : World) (be : Backend) (fname : String) (opt : CompileOption)
        (pr : String × Int),
      w.buildResult ⟨be.context_, kernelSource w fname⟩ be.devices_ opt.opt =
        some pr →
      (BuildProgram w be fname opt).2.2 = Outcome.ub) := by
  refine ⟨fun dt => rfl, ?_, ?_, ?_, ?_⟩
  · intro ps dt hne hall
    exact createContext_no_support ps dt hne hall
  · intro devices id hguard
    simp only [selectDevice]
    rw [if_pos hguard]
  · intro w be fname opt hfile hbuild
    have hks : kernelSource w fname = "" := by
      unfold kernelSource
      rw [hfile]
      rfl
    have hop : openErrMsg w fname = "Open " ++ fname ++ " failed!\n" := by
      unfold openErrMsg
      rw [hfile]
      rfl
    unfold BuildProgram
    simp only [hks, hop, hbuild]
  · intro w be fname opt pr hbuild
    unfold BuildProgram
    simp only [hbuild]

/-- C1 witness: the no-platform path at device type 2, and the
open-failure path continuing with an ok result at a concrete world. -/
theorem C1_error_paths_witness :
    CreateContext_ [] 2 =
      (⟨"", "No platform found, install CUDA or AMD SDK first\n"⟩,
       Outcome.exit (-1)) ∧
    BuildProgram worldEmptyDevices be1 "absent.cl" CompileOption.mkDefault =
      (be1, ⟨"", "Open " ++ "absent.cl" ++ " failed!\n"⟩,
       Outcome.ok ⟨be1.context_, ""⟩) ∧
    CreateContext_ [platCpuOnly] 4 =
      (⟨"", "no platform support device type" ++ toString (4 : Int) ++ "\n"⟩,
       Outcome.exit (-1)) :=
  ⟨C1_error_paths.1 2,
   C1_error_paths.2.2.2.1 worldEmptyDevices be1 "absent.cl"
     CompileOption.mkDefault rfl rfl,
   C1_error_paths.2.1 [platCpuOnly] 4 (by simp)
     (by
       intro p hp
       simp only [List.mem_singleton] at hp
       subst hp
       decide)⟩

/-- C8: the claim states that BuildProgram executes a return statement
on every control path; at a concrete input on which the native build
throws, the catch branch prints the diagnostics and control falls off
the end of the function without returning, which the embedding records
as undefined behaviour rather than a returned cl::Program value. -/
theorem C8_build_failure_falls_off_end :
    (BuildProgram worldBuildFail be1 "hydro.cl" CompileOption.mkDefault).2.2 =
      Outcome.ub ∧
    (BuildProgram worldBuildFail be1 "hydro.cl" CompileOption.mkDefault).2.1.err =
      "clBuildProgram" ++ "(" ++ toString (-11 : Int) ++ ")\n" ++
        "error: build failed" ∧
    ¬ (∃ p, (BuildProgram worldBuildFail be1 "hydro.cl"
          CompileOption.mkDefault).2.2 = Outcome.ok p) := by
  have h1 : (BuildProgram worldBuildFail be1 "hydro.cl"
      CompileOption.mkDefault).2.2 = Outcome.ub := by rfl
  refine ⟨h1, rfl, ?_⟩
  rintro ⟨p, hp⟩
  rw [h1] at hp
  exact Outcome.noConfusion hp

end ClviscWrapper
